import Mathlib

/-!
Shallow embedding of the sqlc configuration loader
(`internal/config/config.go`): the settings data model, the override
normalizer (`Override.Parse`), the document validator (`ParseConfig`),
and the settings combiner (`Combine`).  Go strings are embedded as
`List Char`; the `-1`-or-index results of `strings.LastIndex` become
`Option Nat`; fallible code returns `Except`.
-/

set_option maxHeartbeats 1000000

namespace SqlcConfig

/-- Go strings, embedded as lists of characters. -/
abbrev Str := List Char

/-- Helper for `splitOnChar`, accumulating the current segment in reverse. -/
def splitOnAux (sep : Char) : Str → Str → List Str
  | [], acc => [acc.reverse]
  | c :: rest, acc =>
    if c = sep then acc.reverse :: splitOnAux sep rest []
    else splitOnAux sep rest (c :: acc)

/-- Embedding of Go `strings.Split(s, sep)` for a one-character separator:
splitting the empty string gives one empty segment, and a string with `n`
separators gives `n + 1` segments. -/
def splitOnChar (sep : Char) (s : Str) : List Str := splitOnAux sep s []

/-- Embedding of Go `strings.LastIndex(s, c)` for a one-character needle:
`none` plays the role of Go's `-1`. -/
def lastIndex (c : Char) : Str → Option Nat
  | [] => none
  | x :: xs =>
    match lastIndex c xs with
    | some i => some (i + 1)
    | none => if x = c then some 0 else none

/-- The names of the typed, non-untyped basic Go types: the loop in
`Override.Parse` over `go/types.Typ` keeps exactly the entries whose
`Info()` is nonzero and not `IsUntyped`, which are these seventeen. -/
def goBasicTypes : List Str :=
  ["bool".toList, "int".toList, "int8".toList, "int16".toList, "int32".toList,
   "int64".toList, "uint".toList, "uint8".toList, "uint16".toList, "uint32".toList,
   "uint64".toList, "uintptr".toList, "float32".toList, "float64".toList,
   "complex64".toList, "complex128".toList, "string".toList]

/-- Embedding of Go `filepath.Base` on a Unix path: empty path gives ".",
trailing separators are stripped, everything up to the final "/" is dropped,
and an all-separator path gives "/". -/
def filepathBase (path : Str) : Str :=
  if path = [] then ['.']
  else
    let p := (path.reverse.dropWhile (fun c => c = '/')).reverse
    let p2 :=
      match lastIndex '/' p with
      | some i => p.drop (i + 1)
      | none => p
    if p2 = [] then ['/'] else p2

/-- Embedding of `pg.FQN`: a fully-qualified relation name.  The Go zero
value of each field is the empty string. -/
structure FQN where
  catalog : Str := []
  schema : Str := []
  rel : Str := []
deriving DecidableEq

/-- Embedding of `config.Engine` (a Go string type). -/
abbrev Engine := Str

/-- The `mysql` engine constant. -/
def EngineMySQL : Engine := "mysql".toList

/-- The `postgresql` engine constant, used as the default package engine. -/
def EnginePostgreSQL : Engine := "postgresql".toList

/-- Embedding of `config.Override`.  Field defaults are the Go zero values
left by the JSON decoder for absent fields. -/
structure Override where
  goType : Str := []
  dbType : Str := []
  deprecatedPostgresType : Str := []
  engine : Engine := []
  null : Bool := false
  column : Str := []
  columnName : Str := []
  table : FQN := {}
  goTypeName : Str := []
  goPackage : Str := []
  goBasicType : Bool := false
deriving DecidableEq

/-- Embedding of `config.PackageSettings`. -/
structure PackageSettings where
  name : Str := []
  engine : Engine := []
  path : Str := []
  schema : Str := []
  queries : Str := []
  emitInterface : Bool := false
  emitJSONTags : Bool := false
  emitPreparedQueries : Bool := false
  overrides : List Override := []
deriving DecidableEq

/-- Embedding of `config.GenerateSettings`.  The `Rename` map is embedded
as an association list; it is never consulted by the validated code. -/
structure GenerateSettings where
  version : Str := []
  packages : List PackageSettings := []
  overrides : List Override := []
  rename : List (Str × Str) := []
deriving DecidableEq

/-- The error taxonomy of `Override.Parse`.  The two distinct
`ConflictingOverrideFields` messages of the source (deprecated alias versus
column/db_type) are kept as two constructors; `isConflictingOverrideFields`
below groups them the way the specification's taxonomy does.  The two
identically-worded "not the proper format" messages share one constructor. -/
inductive ParseError where
  | conflictingDBTypeAndPostgresType : ParseError
  | conflictingColumnAndDBType : Str → Str → ParseError
  | incompleteOverride : ParseError
  | invalidColumnSpecifier : Str → ParseError
  | notBasicGoType : Str → ParseError
  | invalidTypeFormat : Str → ParseError
deriving DecidableEq

/-- Whether a parse error is one of the two `ConflictingOverrideFields`
errors of the specification's error taxonomy. -/
def ParseError.isConflictingOverrideFields : ParseError → Bool
  | .conflictingDBTypeAndPostgresType => true
  | .conflictingColumnAndDBType _ _ => true
  | _ => false

/-- The document-level error taxonomy of `ParseConfig`; override-level
errors are propagated through `overrideError`. -/
inductive ConfigError where
  | missingVersion : ConfigError
  | unknownVersion : ConfigError
  | noPackages : ConfigError
  | noPackagePath : ConfigError
  | engineRequiredForGlobalOverride : ConfigError
  | overrideError : ParseError → ConfigError
deriving DecidableEq

/-- True when the Go string begins with the pointer sigil, i.e. the source
expression `o.GoType[0] == '*'` evaluated on a non-empty string. -/
def hasStarSigil : Str → Bool
  | '*' :: _ => true
  | _ => false

/-- The final pointer-handling step of `Override.Parse` (source lines
180–184): when the raw type reference begins with `*`, strip the sigil
from the front of the resolved package and prepend it to the resolved
type name. -/
def pointerAdjust (o : Override) : Override :=
  if hasStarSigil o.goType then
    { o with goPackage := o.goPackage.drop 1, goTypeName := '*' :: o.goTypeName }
  else o

/-- The column-specifier mini-parser of `Override.Parse` (source lines
118–133): split the column path on "." and classify by segment count,
returning the resolved column name and table reference. -/
def parseColumnSpecifier (col : Str) : Except ParseError (Str × FQN) :=
  match splitOnChar '.' col with
  | [a, b] => .ok (b, { schema := "public".toList, rel := a })
  | [a, b, c] => .ok (c, { schema := a, rel := b })
  | [a, b, c, d] => .ok (d, { catalog := a, schema := b, rel := c })
  | _ => .error (.invalidColumnSpecifier col)

/-- The "validate Column" step of `Override.Parse`: when a column path is
present, run the column-specifier parser and attach its result. -/
def Override.applyColumn (o : Override) : Except ParseError Override :=
  if o.column ≠ [] then
    match parseColumnSpecifier o.column with
    | .error e => .error e
    | .ok r => .ok { o with columnName := r.1, table := r.2 }
  else .ok o

/-- The "validate GoType" step of `Override.Parse` (source lines 136–184):
locate the last "." and the last "/"; with neither present the string must
name a basic Go type; with both present split into package (up to the last
".") and type name (after the last "/"), stripping a leading "go-" or a
trailing "-go" affix from the name; with exactly one present fail.  The
pointer adjustment runs on every successful path. -/
def Override.parseGoType (o : Override) : Except ParseError Override :=
  match lastIndex '.' o.goType, lastIndex '/' o.goType with
  | none, none =>
    if goBasicTypes.contains o.goType then
      .ok (pointerAdjust { o with goTypeName := o.goType, goBasicType := true })
    else .error (.notBasicGoType o.goType)
  | some _, none => .error (.invalidTypeFormat o.goType)
  | none, some _ => .error (.invalidTypeFormat o.goType)
  | some d, some s =>
    let typename0 := o.goType.drop (s + 1)
    let typename1 :=
      if typename0.take 3 = "go-".toList then typename0.drop 3 else typename0
    let typename :=
      if 3 ≤ typename1.length ∧ typename1.drop (typename1.length - 3) = "-go".toList then
        typename1.take (typename1.length - 3)
      else typename1
    .ok (pointerAdjust { o with goTypeName := typename, goPackage := o.goType.take d })

/-- The body of `Override.Parse` after the deprecated-alias migration:
the mutual-exclusion checks on `column`/`db_type`, then the column step,
then the type-reference step. -/
def Override.parseMain (o : Override) : Except ParseError Override :=
  if o.column ≠ [] ∧ o.dbType ≠ [] then
    .error (.conflictingColumnAndDBType o.column o.dbType)
  else if o.column = [] ∧ o.dbType = [] then
    .error .incompleteOverride
  else
    match o.applyColumn with
    | .error e => .error e
    | .ok o2 => o2.parseGoType

/-- Embedding of `Override.Parse` (source lines 98–187).  The deprecated
`postgres_type` alias is migrated into `db_type` first (failing when both
are set), then the main body runs. -/
def Override.Parse (o : Override) : Except ParseError Override :=
  if o.deprecatedPostgresType ≠ [] then
    if o.dbType ≠ [] then .error .conflictingDBTypeAndPostgresType
    else Override.parseMain { o with dbType := o.deprecatedPostgresType }
  else o.parseMain

/-- Whether `Override.Parse` writes the deprecation warning to the
diagnostic channel (`os.Stderr`): exactly when the deprecated
`postgres_type` field is non-empty. -/
def Override.emitsDeprecatedWarning (o : Override) : Bool :=
  !o.deprecatedPostgresType.isEmpty

/-- The duplicate-free list of engine tags appearing across the packages,
in first-occurrence order: the size of the Go map built by
`ValidateGlobalOverrides` is its length. -/
def distinctEngines (pkgs : List PackageSettings) : List Engine :=
  pkgs.foldl (fun acc p => if acc.contains p.engine then acc else acc ++ [p.engine]) []

/-- The loop of `ValidateGlobalOverrides` over the global overrides:
when several engines are in use, the first override lacking an engine tag
fails. -/
def requireEngines (usesMultipleEngines : Bool) : List Override → Except ConfigError Unit
  | [] => .ok ()
  | o :: rest =>
    if usesMultipleEngines && o.engine.isEmpty then
      .error .engineRequiredForGlobalOverride
    else requireEngines usesMultipleEngines rest

/-- Embedding of `GenerateSettings.ValidateGlobalOverrides` (source lines
81–96): collect the distinct engine tags (an unset tag counts as the
literal empty value), and when more than one is present require an engine
tag on every global override. -/
def GenerateSettings.ValidateGlobalOverrides (c : GenerateSettings) : Except ConfigError Unit :=
  requireEngines (decide (1 < (distinctEngines c.packages).length)) c.overrides

/-- Fail-fast normalization of a list of overrides, in order: the loop
`for i := range overrides { overrides[i].Parse() }`. -/
def parseOverrideList : List Override → Except ParseError (List Override)
  | [] => .ok []
  | o :: rest =>
    match o.Parse with
    | .error e => .error e
    | .ok o2 =>
      match parseOverrideList rest with
      | .error e => .error e
      | .ok rest2 => .ok (o2 :: rest2)

/-- The per-package step of `ParseConfig` (source lines 219–234): an empty
path fails, then the package-scoped overrides are normalized fail-fast,
then an empty name defaults to the final path segment and an empty engine
tag defaults to `postgresql`. -/
def processPackage (p : PackageSettings) : Except ConfigError PackageSettings :=
  if p.path = [] then .error .noPackagePath
  else
    match parseOverrideList p.overrides with
    | .error e => .error (.overrideError e)
    | .ok ovs =>
      .ok { p with
        overrides := ovs,
        name := if p.name = [] then filepathBase p.path else p.name,
        engine := if p.engine = [] then EnginePostgreSQL else p.engine }

/-- The loop of `ParseConfig` over the packages, in document order,
fail-fast. -/
def processPackages : List PackageSettings → Except ConfigError (List PackageSettings)
  | [] => .ok []
  | p :: rest =>
    match processPackage p with
    | .error e => .error e
    | .ok p2 =>
      match processPackages rest with
      | .error e => .error e
      | .ok rest2 => .ok (p2 :: rest2)

/-- The tail of `ParseConfig` (source lines 211–235), run once the
version and packages structural checks pass: validate the global
overrides, normalize them, then process each package in document order. -/
def afterStructuralChecks (config : GenerateSettings) : Except ConfigError GenerateSettings :=
  match config.ValidateGlobalOverrides with
  | .error e => .error e
  | .ok _ =>
    match parseOverrideList config.overrides with
    | .error e => .error (.overrideError e)
    | .ok globals =>
      match processPackages config.packages with
      | .error e => .error e
      | .ok pkgs => .ok { config with overrides := globals, packages := pkgs }

/-- Embedding of `ParseConfig` (source lines 195–236) from the decoded
document onward (the JSON decode itself is the out-of-scope collaborator):
the version checks, the package-presence check, then the override and
package passes. -/
def ParseConfig (config : GenerateSettings) : Except ConfigError GenerateSettings :=
  if config.version = [] then .error .missingVersion
  else if config.version ≠ "1".toList then .error .unknownVersion
  else if config.packages.length = 0 then .error .noPackages
  else afterStructuralChecks config

/-- Embedding of `config.CombinedSettings`. -/
structure CombinedSettings where
  Global : GenerateSettings
  Package : PackageSettings
  Overrides : List Override
deriving DecidableEq

/-- Embedding of `config.Combine` (source lines 244–250). -/
def Combine (gen : GenerateSettings) (pkg : PackageSettings) : CombinedSettings :=
  { Global := gen, Package := pkg, Overrides := gen.overrides ++ pkg.overrides }

/-- The deprecated-alias migration step of `Override.Parse` in isolation:
`none` when both the alias and the primary field are set, otherwise the
record with the alias copied into the primary type-reference field. -/
def migrate (o : Override) : Option Override :=
  if o.deprecatedPostgresType ≠ [] then
    if o.dbType ≠ [] then none else some { o with dbType := o.deprecatedPostgresType }
  else some o

/-! Concrete inputs used by the claim theorems below. -/

def ovBasicString : Override := { dbType := "uuid".toList, goType := "string".toList }

def ovKsuid : Override :=
  { dbType := "uuid".toList, goType := "github.com/segmentio/ksuid.KSUID".toList }

def ovKsuidPtr : Override :=
  { dbType := "uuid".toList, goType := "*github.com/segmentio/ksuid.KSUID".toList }

def pkgMySQL : PackageSettings := { path := "db".toList, engine := EngineMySQL }

def pkgPG : PackageSettings := { path := "gen".toList, engine := EnginePostgreSQL }

def ovNoEngineTag : Override := { dbType := "uuid".toList, goType := "string".toList }

def ovWithEngineTag : Override :=
  { dbType := "uuid".toList, goType := "string".toList, engine := EngineMySQL }

def cfgTwoEnginesNoTag : GenerateSettings :=
  { version := "1".toList, packages := [pkgMySQL, pkgPG], overrides := [ovNoEngineTag] }

def cfgTwoEnginesTagged : GenerateSettings :=
  { version := "1".toList, packages := [pkgMySQL, pkgPG], overrides := [ovWithEngineTag] }

def ovBothSet : Override := { column := "accounts.id".toList, dbType := "uuid".toList }

def ovNeitherSet : Override := {}

def ovColumnOnly : Override := { column := "id".toList }

def cfgEmptyDoc : GenerateSettings := {}

def cfgV2 : GenerateSettings := { version := "2".toList }

def cfgV1NoPkgs : GenerateSettings := { version := "1".toList }

def cfgV1OnePkg : GenerateSettings :=
  { version := "1".toList, packages := [{ path := "db".toList }] }

def ovAliasOnly : Override :=
  { deprecatedPostgresType := "uuid".toList, goType := "string".toList }

def ovAliasAndDB : Override :=
  { deprecatedPostgresType := "uuid".toList, dbType := "text".toList }

def pkgInternalGen : PackageSettings := { path := "internal/gen".toList }

def cfgInternalGen : GenerateSettings :=
  { version := "1".toList, packages := [pkgInternalGen] }

def ovEmptyGoType : Override := { dbType := "uuid".toList }

def ovStarOnly : Override := { dbType := "uuid".toList, goType := "*".toList }

/-- An override carrying only a type reference, used to probe the
type-reference parser through `Override.Parse`. -/
def ovGoOnly (s : Str) : Override := { dbType := "uuid".toList, goType := s }

/-! Helper lemmas about the pieces of `Override.Parse`. -/

theorem parseColumnSpecifier_error_shape (col : Str) (e : ParseError)
    (h : parseColumnSpecifier col = .error e) : e = .invalidColumnSpecifier col := by
  unfold parseColumnSpecifier at h
  split at h <;> simp_all

theorem parseGoType_error_shape (o : Override) (e : ParseError)
    (h : o.parseGoType = .error e) :
    e = .notBasicGoType o.goType ∨ e = .invalidTypeFormat o.goType := by
  unfold Override.parseGoType at h
  split at h
  · split at h <;> simp_all
  · simp_all
  · simp_all
  · simp_all

theorem applyColumn_error_shape (o : Override) (e : ParseError)
    (h : o.applyColumn = .error e) : e = .invalidColumnSpecifier o.column := by
  unfold Override.applyColumn at h
  by_cases hc : o.column ≠ []
  · rw [if_pos hc] at h
    cases hp : parseColumnSpecifier o.column with
    | error e2 =>
      rw [hp] at h
      injection h with h
      subst h
      exact parseColumnSpecifier_error_shape _ _ hp
    | ok r =>
      rw [hp] at h
      exact Except.noConfusion h
  · rw [if_neg hc] at h
    exact Except.noConfusion h

theorem applyColumn_ok_fields (o o2 : Override) (h : o.applyColumn = .ok o2) :
    o2.goType = o.goType ∧ o2.column = o.column ∧ o2.dbType = o.dbType := by
  unfold Override.applyColumn at h
  by_cases hc : o.column ≠ []
  · rw [if_pos hc] at h
    cases hp : parseColumnSpecifier o.column with
    | error e2 =>
      rw [hp] at h
      exact Except.noConfusion h
    | ok r =>
      rw [hp] at h
      injection h with h
      subst h
      exact ⟨rfl, rfl, rfl⟩
  · rw [if_neg hc] at h
    injection h with h
    subst h
    exact ⟨rfl, rfl, rfl⟩

theorem migrate_Parse (o o' : Override) (h : migrate o = some o') :
    Override.Parse o = o'.parseMain := by
  unfold migrate at h
  unfold Override.Parse
  by_cases h1 : o.deprecatedPostgresType ≠ []
  · rw [if_pos h1] at h
    rw [if_pos h1]
    by_cases h2 : o.dbType ≠ []
    · rw [if_pos h2] at h
      exact Option.noConfusion h
    · rw [if_neg h2] at h
      rw [if_neg h2]
      injection h with h
      rw [h]
  · rw [if_neg h1] at h
    rw [if_neg h1]
    injection h with h
    rw [h]

theorem parseGoType_nil (o : Override) (h : o.goType = []) :
    o.parseGoType = .error (.notBasicGoType []) := by
  unfold Override.parseGoType
  rw [h]
  rfl

theorem parseMain_nil_toOption (o : Override) (h : o.goType = []) :
    o.parseMain.toOption = none := by
  unfold Override.parseMain
  by_cases h1 : o.column ≠ [] ∧ o.dbType ≠ []
  · rw [if_pos h1]
    rfl
  · rw [if_neg h1]
    by_cases h2 : o.column = [] ∧ o.dbType = []
    · rw [if_pos h2]
      rfl
    · rw [if_neg h2]
      cases hac : o.applyColumn with
      | error e => rfl
      | ok o2 =>
        have hg : o2.goType = [] := (applyColumn_ok_fields o o2 hac).1.trans h
        show o2.parseGoType.toOption = none
        rw [parseGoType_nil o2 hg]
        rfl

theorem lastIndex_lt_length (c : Char) (s : Str) (i : Nat) (h : lastIndex c s = some i) :
    i < s.length := by
  induction s generalizing i with
  | nil => exact Option.noConfusion h
  | cons x xs ih =>
    unfold lastIndex at h
    cases hx : lastIndex c xs with
    | some k =>
      rw [hx] at h
      injection h with h
      subst h
      exact Nat.succ_lt_succ (ih k hx)
    | none =>
      rw [hx] at h
      by_cases hc : x = c
      · rw [if_pos hc] at h
        injection h with h
        subst h
        simp
      · rw [if_neg hc] at h
        exact Option.noConfusion h

theorem requireEngines_missing (os : List Override)
    (h : ∃ o ∈ os, o.engine = []) :
    requireEngines true os = .error .engineRequiredForGlobalOverride := by
  induction os with
  | nil => simp at h
  | cons o rest ih =>
    by_cases he : o.engine.isEmpty
    · simp [requireEngines, he]
    · have hstep : requireEngines true (o :: rest) = requireEngines true rest := by
        simp [requireEngines, he]
      rw [hstep]
      rcases h with ⟨o2, h2, h3⟩
      rcases List.mem_cons.mp h2 with h4 | h4
      · subst h4
        exact absurd (by rw [h3]; rfl) he
      · exact ih ⟨o2, h4, h3⟩

/-! Claim theorems. -/

/-- Claim C1, counterexample: the claim says the type reference
"github.com/segmentio/ksuid.KSUID" yields type name "KSUID", but
`Override.Parse` assigns `typename = o.GoType[lastSlash+1:]`, so the
resolved type name is the package-qualified "ksuid.KSUID". -/
theorem Override_Parse_ksuid_counterexample :
    (Override.Parse ovKsuid).toOption.map Override.goTypeName = some ("ksuid.KSUID".toList) ∧
    (Override.Parse ovKsuid).toOption.map Override.goTypeName ≠ some ("KSUID".toList) := by
  exact ⟨rfl, by decide⟩

/-- Claim C1, amended: "string" yields a builtin scalar with empty package
and type name "string"; "github.com/segmentio/ksuid.KSUID" yields package
"github.com/segmentio/ksuid", type name "ksuid.KSUID" (everything after
the last "/", hence package-qualified), not builtin; the pointer form
yields type name "*ksuid.KSUID" with the same package path, the sigil
stripped from the package only and not duplicated. -/
theorem Override_Parse_typeReference_examples :
    Override.Parse ovBasicString =
      .ok { ovBasicString with goTypeName := "string".toList, goBasicType := true } ∧
    Override.Parse ovKsuid =
      .ok { ovKsuid with
        goTypeName := "ksuid.KSUID".toList,
        goPackage := "github.com/segmentio/ksuid".toList } ∧
    Override.Parse ovKsuidPtr =
      .ok { ovKsuidPtr with
        goTypeName := "*ksuid.KSUID".toList,
        goPackage := "github.com/segmentio/ksuid".toList } ∧
    hasStarSigil ovKsuidPtr.goType = true ∧
    hasStarSigil ovKsuid.goType = false ∧
    (Override.Parse ovKsuid).toOption.map Override.goBasicType = some false := by
  exact ⟨rfl, rfl, rfl, rfl, rfl, rfl⟩

/-- Claim C2: the column-specifier parser splits on "." and classifies by
segment count: 2 segments give schema "public", table seg0, column seg1;
3 segments give schema seg0, table seg1, column seg2; 4 segments give
catalog seg0, schema seg1, table seg2, column seg3; any other count fails
with the invalid-column-specifier error naming the offending path. -/
theorem parseColumnSpecifier_classification (col : Str) :
    (∀ a b, splitOnChar '.' col = [a, b] →
      parseColumnSpecifier col =
        .ok (b, { catalog := [], schema := "public".toList, rel := a })) ∧
    (∀ a b c, splitOnChar '.' col = [a, b, c] →
      parseColumnSpecifier col = .ok (c, { catalog := [], schema := a, rel := b })) ∧
    (∀ a b c d, splitOnChar '.' col = [a, b, c, d] →
      parseColumnSpecifier col = .ok (d, { catalog := a, schema := b, rel := c })) ∧
    ((splitOnChar '.' col).length ≠ 2 → (splitOnChar '.' col).length ≠ 3 →
      (splitOnChar '.' col).length ≠ 4 →
      parseColumnSpecifier col = .error (.invalidColumnSpecifier col)) := by
  refine ⟨?_, ?_, ?_, ?_⟩
  · intro a b h
    simp [parseColumnSpecifier, h]
  · intro a b c h
    simp [parseColumnSpecifier, h]
  · intro a b c d h
    simp [parseColumnSpecifier, h]
  · intro h2 h3 h4
    unfold parseColumnSpecifier
    rcases hsp : splitOnChar '.' col with _ | ⟨a, _ | ⟨b, _ | ⟨c, _ | ⟨d, _ | ⟨e, rest⟩⟩⟩⟩⟩ <;>
      simp_all

/-- Witness for C2 at the concrete input "accounts.id". -/
theorem parseColumnSpecifier_classification_witness :
    splitOnChar '.' ("accounts.id".toList) = ["accounts".toList, "id".toList] ∧
    parseColumnSpecifier ("accounts.id".toList) =
      .ok ("id".toList, { catalog := [], schema := "public".toList, rel := "accounts".toList }) :=
  ⟨by decide, (parseColumnSpecifier_classification ("accounts.id".toList)).1 _ _ (by decide)⟩

/-- Claim C3: when the packages reference more than one distinct engine
tag (an unset tag counting as the literal empty value, computed before any
defaulting), a global override lacking an engine tag makes validation fail
with the engine-required error; concretely, two packages with differing
engines plus an untagged global override fail — through `ParseConfig` as
well — while the same override with an explicit engine tag passes. -/
theorem ValidateGlobalOverrides_engineRequired :
    (∀ c : GenerateSettings, 1 < (distinctEngines c.packages).length →
      (∃ o ∈ c.overrides, o.engine = []) →
      c.ValidateGlobalOverrides = .error .engineRequiredForGlobalOverride) ∧
    cfgTwoEnginesNoTag.ValidateGlobalOverrides = .error .engineRequiredForGlobalOverride ∧
    ParseConfig cfgTwoEnginesNoTag = .error .engineRequiredForGlobalOverride ∧
    cfgTwoEnginesTagged.ValidateGlobalOverrides = .ok () := by
  refine ⟨?_, rfl, rfl, rfl⟩
  intro c h1 h2
  unfold GenerateSettings.ValidateGlobalOverrides
  rw [decide_eq_true h1]
  exact requireEngines_missing c.overrides h2

/-- Witness for C3 at the two-engine configuration with an untagged
global override. -/
theorem ValidateGlobalOverrides_engineRequired_witness :
    1 < (distinctEngines cfgTwoEnginesNoTag.packages).length ∧
    cfgTwoEnginesNoTag.ValidateGlobalOverrides = .error .engineRequiredForGlobalOverride :=
  ⟨by decide, ValidateGlobalOverrides_engineRequired.1 cfgTwoEnginesNoTag (by decide)
    ⟨ovNoEngineTag, by decide, rfl⟩⟩

/-- Claim C4: after the deprecated-alias migration (`migrate`), an
override with both the column path and the type reference set fails with a
conflicting-override-fields error, one with neither set fails with the
incomplete-override error, and one with exactly one of the two set never
fails with either of those errors. -/
theorem Override_Parse_mutualExclusion :
    (∀ o o' : Override, migrate o = some o' → o'.column ≠ [] → o'.dbType ≠ [] →
      Override.Parse o = .error (.conflictingColumnAndDBType o'.column o'.dbType) ∧
      (ParseError.conflictingColumnAndDBType o'.column o'.dbType).isConflictingOverrideFields = true) ∧
    (∀ o o' : Override, migrate o = some o' → o'.column = [] → o'.dbType = [] →
      Override.Parse o = .error .incompleteOverride) ∧
    (∀ (o o' : Override) (e : ParseError), migrate o = some o' →
      ((o'.column ≠ [] ∧ o'.dbType = []) ∨ (o'.column = [] ∧ o'.dbType ≠ [])) →
      Override.Parse o = .error e →
      e.isConflictingOverrideFields = false ∧ e ≠ .incompleteOverride) := by
  refine ⟨?_, ?_, ?_⟩
  · intro o o' hm h1 h2
    refine ⟨?_, rfl⟩
    rw [migrate_Parse o o' hm]
    unfold Override.parseMain
    rw [if_pos ⟨h1, h2⟩]
  · intro o o' hm h1 h2
    rw [migrate_Parse o o' hm]
    unfold Override.parseMain
    rw [if_neg (by simp [h1]), if_pos ⟨h1, h2⟩]
  · intro o o' e hm hx hp
    rw [migrate_Parse o o' hm] at hp
    unfold Override.parseMain at hp
    have hnot1 : ¬(o'.column ≠ [] ∧ o'.dbType ≠ []) := by
      rcases hx with ⟨ha, hb⟩ | ⟨ha, hb⟩ <;> simp [ha, hb]
    have hnot2 : ¬(o'.column = [] ∧ o'.dbType = []) := by
      rcases hx with ⟨ha, hb⟩ | ⟨ha, hb⟩ <;> simp [ha, hb]
    rw [if_neg hnot1, if_neg hnot2] at hp
    cases hac : o'.applyColumn with
    | error e2 =>
      rw [hac] at hp
      injection hp with hp
      rw [← hp, applyColumn_error_shape o' e2 hac]
      exact ⟨rfl, by simp⟩
    | ok o2 =>
      rw [hac] at hp
      rcases parseGoType_error_shape o2 e hp with h | h <;> rw [h] <;> exact ⟨rfl, by simp⟩

/-- Witness for C4 at three concrete overrides: both fields set, neither
set, and exactly one (an invalid one-segment column) set. -/
theorem Override_Parse_mutualExclusion_witness :
    Override.Parse ovBothSet =
      .error (.conflictingColumnAndDBType ("accounts.id".toList) ("uuid".toList)) ∧
    Override.Parse ovNeitherSet = .error .incompleteOverride ∧
    ((ParseError.invalidColumnSpecifier ("id".toList)).isConflictingOverrideFields = false ∧
      ParseError.invalidColumnSpecifier ("id".toList) ≠ .incompleteOverride) :=
  ⟨(Override_Parse_mutualExclusion.1 ovBothSet ovBothSet rfl (by decide) (by decide)).1,
   Override_Parse_mutualExclusion.2.1 ovNeitherSet ovNeitherSet rfl rfl rfl,
   Override_Parse_mutualExclusion.2.2 ovColumnOnly ovColumnOnly
     (.invalidColumnSpecifier ("id".toList)) rfl (Or.inl ⟨by decide, rfl⟩) rfl⟩

/-- Claim C5: `ParseConfig` checks run in a fixed fail-fast order: empty
version gives the missing-version error; a present version other than "1"
gives the unknown-version error; an empty package list gives the
no-packages error; only once those pass does the run continue with the
global-override validation and normalization followed by the per-package
pass in document order (`afterStructuralChecks`). -/
theorem ParseConfig_failFast (c : GenerateSettings) :
    (c.version = [] → ParseConfig c = .error .missingVersion) ∧
    (c.version ≠ [] → c.version ≠ "1".toList → ParseConfig c = .error .unknownVersion) ∧
    (c.version = "1".toList → c.packages = [] → ParseConfig c = .error .noPackages) ∧
    (c.version = "1".toList → c.packages ≠ [] → ParseConfig c = afterStructuralChecks c) := by
  refine ⟨?_, ?_, ?_, ?_⟩
  · intro h
    unfold ParseConfig
    rw [if_pos h]
  · intro h1 h2
    unfold ParseConfig
    rw [if_neg h1, if_pos h2]
  · intro h1 h2
    unfold ParseConfig
    rw [if_neg (by simp [h1]), if_neg (by simp [h1]), if_pos (by simp [h2])]
  · intro h1 h2
    unfold ParseConfig
    rw [if_neg (by simp [h1]), if_neg (by simp [h1]),
      if_neg (by simp [List.length_eq_zero, h2])]

/-- Witness for C5 at four concrete documents, one per stage. -/
theorem ParseConfig_failFast_witness :
    ParseConfig cfgEmptyDoc = .error .missingVersion ∧
    ParseConfig cfgV2 = .error .unknownVersion ∧
    ParseConfig cfgV1NoPkgs = .error .noPackages ∧
    ParseConfig cfgV1OnePkg = afterStructuralChecks cfgV1OnePkg :=
  ⟨(ParseConfig_failFast cfgEmptyDoc).1 rfl,
   (ParseConfig_failFast cfgV2).2.1 (by decide) (by decide),
   (ParseConfig_failFast cfgV1NoPkgs).2.2.1 rfl rfl,
   (ParseConfig_failFast cfgV1OnePkg).2.2.2 rfl (by decide)⟩

/-- Claim C6: a non-empty deprecated `postgres_type` alias together with
an independently set `db_type` fails with a conflicting-override-fields
error; otherwise the alias is copied into the primary field (the parse
behaves exactly like the main body on the migrated record), the one-line
deprecation warning is emitted, and the warning does not prevent success,
as the concrete alias-only override shows. -/
theorem Override_Parse_deprecatedAlias :
    (∀ o : Override, o.deprecatedPostgresType ≠ [] → o.dbType ≠ [] →
      Override.Parse o = .error .conflictingDBTypeAndPostgresType ∧
      ParseError.conflictingDBTypeAndPostgresType.isConflictingOverrideFields = true) ∧
    (∀ o : Override, o.deprecatedPostgresType ≠ [] → o.dbType = [] →
      Override.Parse o = Override.parseMain { o with dbType := o.deprecatedPostgresType } ∧
      o.emitsDeprecatedWarning = true) ∧
    Override.Parse ovAliasOnly =
      .ok { ovAliasOnly with
        dbType := "uuid".toList, goTypeName := "string".toList, goBasicType := true } := by
  refine ⟨?_, ?_, rfl⟩
  · intro o h1 h2
    refine ⟨?_, rfl⟩
    unfold Override.Parse
    rw [if_pos h1, if_pos h2]
  · intro o h1 h2
    constructor
    · unfold Override.Parse
      rw [if_pos h1, if_neg (by simp [h2])]
    · unfold Override.emitsDeprecatedWarning
      rcases hd : o.deprecatedPostgresType with _ | ⟨a, l⟩
      · exact absurd hd h1
      · rfl

/-- Witness for C6 at a conflicting alias override and at the alias-only
override. -/
theorem Override_Parse_deprecatedAlias_witness :
    Override.Parse ovAliasAndDB = .error .conflictingDBTypeAndPostgresType ∧
    Override.Parse ovAliasOnly = Override.parseMain { ovAliasOnly with dbType := "uuid".toList } ∧
    ovAliasOnly.emitsDeprecatedWarning = true :=
  ⟨(Override_Parse_deprecatedAlias.1 ovAliasAndDB (by decide) (by decide)).1,
   (Override_Parse_deprecatedAlias.2.1 ovAliasOnly (by decide) rfl).1,
   (Override_Parse_deprecatedAlias.2.1 ovAliasOnly (by decide) rfl).2⟩

/-- Claim C7: the per-package validation step fails with the
no-package-path error on an empty path; on success the name is the final
path segment when it was empty (in particular path "internal/gen" gives
name "gen", also through a full `ParseConfig` run) and the engine defaults
to `postgresql` when it was empty. -/
theorem processPackage_defaults :
    (∀ p : PackageSettings, p.path = [] → processPackage p = .error .noPackagePath) ∧
    (∀ p q : PackageSettings, processPackage p = .ok q →
      q.name = (if p.name = [] then filepathBase p.path else p.name) ∧
      q.engine = (if p.engine = [] then EnginePostgreSQL else p.engine)) ∧
    filepathBase ("internal/gen".toList) = "gen".toList ∧
    ParseConfig cfgInternalGen =
      .ok { cfgInternalGen with
        packages := [{ pkgInternalGen with name := "gen".toList, engine := EnginePostgreSQL }] } ∧
    ParseConfig { version := "1".toList, packages := [{}] } = .error .noPackagePath := by
  refine ⟨?_, ?_, by decide, rfl, rfl⟩
  · intro p h
    unfold processPackage
    rw [if_pos h]
  · intro p q h
    unfold processPackage at h
    by_cases hp : p.path = []
    · rw [if_pos hp] at h
      exact Except.noConfusion h
    · rw [if_neg hp] at h
      cases ho : parseOverrideList p.overrides with
      | error e =>
        rw [ho] at h
        exact Except.noConfusion h
      | ok ovs =>
        rw [ho] at h
        injection h with h
        subst h
        exact ⟨rfl, rfl⟩

/-- Witness for C7 at a pathless package and at the "internal/gen"
package. -/
theorem processPackage_defaults_witness :
    processPackage {} = .error .noPackagePath ∧
    ((if pkgInternalGen.name = [] then filepathBase pkgInternalGen.path
        else pkgInternalGen.name) = "gen".toList →
      ({ pkgInternalGen with name := "gen".toList, engine := EnginePostgreSQL } :
        PackageSettings).name = "gen".toList) ∧
    ({ pkgInternalGen with name := "gen".toList, engine := EnginePostgreSQL } :
      PackageSettings).name = "gen".toList :=
  ⟨processPackage_defaults.1 {} rfl,
   fun _ => rfl,
   ((processPackage_defaults.2.1 pkgInternalGen
      { pkgInternalGen with name := "gen".toList, engine := EnginePostgreSQL } rfl).1).trans
     (by decide)⟩

/-- Claim C8: an empty type reference fails with the not-a-builtin-type
error and the lone pointer sigil "*" fails the same way, as a reported
error rather than a crash; the source's `o.GoType[0]` index (modelled by
`pointerAdjust`, which runs only on successful parses) is therefore never
reached with an empty `go_type`: any override whose `go_type` is empty
never parses successfully. -/
theorem Override_Parse_emptyGoType :
    Override.Parse ovEmptyGoType = .error (.notBasicGoType []) ∧
    Override.Parse ovStarOnly = .error (.notBasicGoType ("*".toList)) ∧
    (∀ o : Override, o.goType = [] → (Override.Parse o).toOption = none) := by
  refine ⟨rfl, rfl, ?_⟩
  intro o h
  unfold Override.Parse
  by_cases h1 : o.deprecatedPostgresType ≠ []
  · rw [if_pos h1]
    by_cases h2 : o.dbType ≠ []
    · rw [if_pos h2]
      rfl
    · rw [if_neg h2]
      exact parseMain_nil_toOption _ h
  · rw [if_neg h1]
    exact parseMain_nil_toOption _ h

/-- Witness for C8 at the empty type reference. -/
theorem Override_Parse_emptyGoType_witness :
    ovEmptyGoType.goType = [] ∧ (Override.Parse ovEmptyGoType).toOption = none :=
  ⟨rfl, Override_Parse_emptyGoType.2.2 ovEmptyGoType rfl⟩

/-- Claim C9: `Combine` concatenates the global overrides before the
package-scoped overrides, preserving relative order within each group, so
the merged length is the sum of the input lengths; it validates nothing
and returns both inputs unchanged. -/
theorem Combine_order (gen : GenerateSettings) (pkg : PackageSettings) :
    (Combine gen pkg).Overrides = gen.overrides ++ pkg.overrides ∧
    (Combine gen pkg).Overrides.length = gen.overrides.length + pkg.overrides.length ∧
    (Combine gen pkg).Global = gen ∧ (Combine gen pkg).Package = pkg :=
  ⟨rfl, List.length_append _ _, rfl, rfl⟩

/-- Claim C10, counterexample: at "a.b/go-c" the last "." (index 1)
precedes the last "/" (index 3), and the claim predicts the type name is
everything after the last "/", i.e. "go-c"; the parser instead strips the
leading "go-" affix and yields "c". -/
theorem Override_Parse_dotBeforeSlash_counterexample :
    lastIndex '.' ("a.b/go-c".toList) = some 1 ∧
    lastIndex '/' ("a.b/go-c".toList) = some 3 ∧
    (1 : Nat) < 3 ∧
    ("a.b/go-c".toList).drop (3 + 1) = "go-c".toList ∧
    (Override.Parse (ovGoOnly ("a.b/go-c".toList))).toOption.map Override.goTypeName =
      some ("c".toList) ∧
    some ("c".toList) ≠ some ("go-c".toList) := by
  exact ⟨rfl, rfl, by decide, rfl, rfl, by decide⟩

/-- Claim C10, amended: every `go_type` containing both a "." and a "/"
with the last "." before the last "/" is accepted without error; the
package path is everything before the last "." (with a leading pointer
sigil removed when present) and the type name is everything after the
last "/" (with a leading "go-" or trailing "-go" affix stripped and a
pointer sigil prepended when the string starts with one), even though the
package path and type name do not overlap the same qualified segment:
their source regions decompose the string around a separating middle span
of length at least two, which holds the last "." and the last "/". -/
theorem Override_Parse_dotBeforeSlash (s : Str) (i j : Nat)
    (hd : lastIndex '.' s = some i) (hs : lastIndex '/' s = some j) (hij : i < j) :
    Override.Parse (ovGoOnly s) =
      .ok { ovGoOnly s with
        goPackage := if hasStarSigil s then (s.take i).drop 1 else s.take i,
        goTypeName :=
          (let t0 := s.drop (j + 1)
           let t1 := if t0.take 3 = "go-".toList then t0.drop 3 else t0
           let t2 := if 3 ≤ t1.length ∧ t1.drop (t1.length - 3) = "-go".toList then
               t1.take (t1.length - 3) else t1
           if hasStarSigil s then '*' :: t2 else t2) } ∧
    s.take i ++ (s.drop i).take (j + 1 - i) ++ s.drop (j + 1) = s ∧
    2 ≤ ((s.drop i).take (j + 1 - i)).length := by
  have hjlen : j < s.length := lastIndex_lt_length '/' s j hs
  refine ⟨?_, ?_, ?_⟩
  case refine_2 =>
    have hdd : (s.drop i).drop (j + 1 - i) = s.drop (j + 1) := by
      rw [List.drop_drop]
      congr 1
      omega
    rw [List.append_assoc, ← hdd, List.take_append_drop, List.take_append_drop]
  case refine_3 =>
    rw [List.length_take, List.length_drop]
    have hmin : min (j + 1 - i) (s.length - i) = j + 1 - i :=
      Nat.min_eq_left (by omega)
    rw [hmin]
    omega
  have hmain : Override.Parse (ovGoOnly s) = (ovGoOnly s).parseGoType := by
    unfold Override.Parse
    rw [if_neg (by simp [ovGoOnly])]
    unfold Override.parseMain
    rw [if_neg (by simp [ovGoOnly]), if_neg (by simp [ovGoOnly])]
    have hac : (ovGoOnly s).applyColumn = .ok (ovGoOnly s) := rfl
    rw [hac]
  rw [hmain]
  unfold Override.parseGoType
  dsimp only [ovGoOnly]
  rw [hd, hs]
  dsimp only
  unfold pointerAdjust
  by_cases hst : hasStarSigil s
  · rw [if_pos (show hasStarSigil ({ dbType := "uuid".toList, goType := s } : Override).goType = true from hst)]
    simp only [hst, if_pos]
  · rw [if_neg (show ¬ hasStarSigil ({ dbType := "uuid".toList, goType := s } : Override).goType = true from hst)]
    simp only [hst, if_neg]
    rfl

/-- Witness for C10 at the concrete input "a.b/c". -/
theorem Override_Parse_dotBeforeSlash_witness :
    lastIndex '.' ("a.b/c".toList) = some 1 ∧
    lastIndex '/' ("a.b/c".toList) = some 3 ∧
    (1 : Nat) < 3 ∧
    (Override.Parse (ovGoOnly ("a.b/c".toList)) =
      .ok { ovGoOnly ("a.b/c".toList) with
        goPackage := "a".toList, goTypeName := "c".toList } ∧
     ("a.b/c".toList).take 1 ++ (("a.b/c".toList).drop 1).take 3 ++
       ("a.b/c".toList).drop 4 = "a.b/c".toList ∧
     2 ≤ ((("a.b/c".toList).drop 1).take 3).length) :=
  ⟨rfl, rfl, by decide,
   Override_Parse_dotBeforeSlash ("a.b/c".toList) 1 3 rfl rfl (by decide)⟩

end SqlcConfig
